import Mathlib

/-!
Shallow embedding of the control logic of `Final_v3.py` (RSSA shear-device
GUI: stepper-motor pulse generator, sensor sampler, recording control and
status refresh), together with theorems settling the specification claims.

Python floats are modelled as rationals (`ℚ`); fallible peripheral reads are
modelled as `ℕ → Option ℚ` environments; the open CSV file is modelled as a
list of written rows plus the sublist already made durable by `flush`.
-/

namespace RSSA

/-! ### Motor pulse generator (`pulse_stepper`, lines 90–111) -/

/-- The raw step interval computed in `pulse_stepper` when `current_speed > 0`:
`step_interval = 0.02 / (current_speed / 100.0)`. -/
def rawStepInterval (speed : ℚ) : ℚ := 0.02 / (speed / 100)

/-- The step interval after the clamp `step_interval = max(step_interval, 0.001)`. -/
def stepInterval (speed : ℚ) : ℚ := max (rawStepInterval speed) 0.001

theorem rawStepInterval_eq (s : ℚ) : rawStepInterval s = 2 / s := by
  unfold rawStepInterval
  rw [div_div_eq_mul_div]
  norm_num

theorem stepInterval_eq_raw (s : ℚ) (h0 : 0 < s) (h100 : s ≤ 100) :
    stepInterval s = rawStepInterval s := by
  unfold stepInterval
  rw [max_eq_left]
  rw [rawStepInterval_eq s]
  have h1 : (0.001 : ℚ) ≤ 2 / 100 := by norm_num
  refine h1.trans ?_
  exact div_le_div_of_nonneg_left (by norm_num) h0 h100

/-- Claim C1: for speed `s` in `(0,100]` the pulse period equals
`max(0.001, 0.02/(s/100))`; the period strictly decreases with the speed on
`[1,100]`; and the `0.001` clamp never changes the value on `(0,100]`. -/
theorem pulse_period_spec (s s₁ s₂ : ℚ) (h0 : 0 < s) (h100 : s ≤ 100)
    (h1 : 1 ≤ s₁) (h12 : s₁ < s₂) (h2 : s₂ ≤ 100) :
    stepInterval s = max 0.001 (0.02 / (s / 100)) ∧
    stepInterval s₂ < stepInterval s₁ ∧
    stepInterval s = 0.02 / (s / 100) := by
  have h₁0 : (0 : ℚ) < s₁ := lt_of_lt_of_le one_pos h1
  have h₂0 : (0 : ℚ) < s₂ := h₁0.trans h12
  refine ⟨?_, ?_, ?_⟩
  · rw [max_comm]; rfl
  · rw [stepInterval_eq_raw s₁ h₁0 (le_of_lt (lt_of_lt_of_le h12 h2)),
      stepInterval_eq_raw s₂ h₂0 h2,
      rawStepInterval_eq s₁, rawStepInterval_eq s₂]
    exact div_lt_div_of_pos_left (by norm_num) h₁0 h12
  · rw [stepInterval_eq_raw s h0 h100]; rfl

/-- Witness for C1 at `s = 50`, `s₁ = 1`, `s₂ = 100`. -/
theorem pulse_period_spec_witness :
    stepInterval 50 = max 0.001 (0.02 / (50 / 100)) ∧
    stepInterval 100 < stepInterval 1 ∧
    stepInterval 50 = 0.02 / (50 / 100) :=
  pulse_period_spec 50 1 100 (by norm_num) (by norm_num) (by norm_num)
    (by norm_num) (by norm_num)

/-! ### Sensor reading (`read_sensors`, lines 79–88) -/

/-- `read_sensors(channels)`: one reading per channel, in order; the
`try/except` around each channel read is modelled by the environment
`readChannel : ℕ → Option ℚ` (`none` = the read raised), with `0.0`
substituted on failure. -/
def read_sensors (readChannel : ℕ → Option ℚ) (channels : List ℕ) : List ℚ :=
  channels.map fun ch =>
    match readChannel ch with
    | some v => v
    | none => 0

theorem read_sensors_get? (readChannel : ℕ → Option ℚ) (channels : List ℕ)
    (k : ℕ) :
    (read_sensors readChannel channels).get? k =
      (channels.get? k).map fun ch => (readChannel ch).getD 0 := by
  unfold read_sensors
  rw [List.get?_map]
  congr 1
  funext ch
  cases readChannel ch <;> rfl

/-- Claim C10: `read_sensors` returns one reading per input channel: the
output length equals the input length, and the reading at position `k` is
channel `channels[k]`'s own voltage, or `0.0` when that read fails — for
every channel list, including the empty one. -/
theorem read_sensors_pointwise (readChannel : ℕ → Option ℚ)
    (channels : List ℕ) :
    (read_sensors readChannel channels).length = channels.length ∧
    ∀ k : ℕ, (read_sensors readChannel channels).get? k =
      (channels.get? k).map fun ch => (readChannel ch).getD 0 :=
  ⟨List.length_map channels _, fun k => read_sensors_get? readChannel channels k⟩

/-- Claim C6: in one tick, a failed read on the channel at position `k`
yields `0.0` at position `k` only; the reading at any position `j` is still
determined by channel `channels[j]`'s own read, unaffected by the failure. -/
theorem read_sensors_isolated_failure (readChannel : ℕ → Option ℚ)
    (channels : List ℕ) (k j : ℕ) (hk : k < channels.length)
    (hj : j < channels.length)
    (hfail : readChannel (channels.get ⟨k, hk⟩) = none) :
    (read_sensors readChannel channels).get? k = some 0 ∧
    (read_sensors readChannel channels).get? j =
      some ((readChannel (channels.get ⟨j, hj⟩)).getD 0) := by
  constructor
  · rw [read_sensors_get? readChannel channels k, List.get?_eq_get hk]
    simp only [List.get_eq_getElem] at hfail
    simp [hfail]
  · rw [read_sensors_get? readChannel channels j, List.get?_eq_get hj]
    simp

/-- Witness for C6: channel 1's read fails in environment `env` while
channels 0 and 2 succeed; position 1 reads `0.0`, position 2 reads its own
value `7`. -/
theorem read_sensors_isolated_failure_witness :
    (read_sensors (fun ch => if ch = 1 then none else some (ch + 5 : ℚ)) [0, 1, 2]).get? 1 =
      some 0 ∧
    (read_sensors (fun ch => if ch = 1 then none else some (ch + 5 : ℚ)) [0, 1, 2]).get? 2 =
      some (((fun ch => if ch = 1 then none else some (ch + 5 : ℚ)) ([0, 1, 2].get ⟨2, by norm_num⟩)).getD 0) :=
  read_sensors_isolated_failure (fun ch => if ch = 1 then none else some (ch + 5 : ℚ))
    [0, 1, 2] 1 2 (by norm_num) (by norm_num) (by norm_num)

/-! ### Channel selection (`update_selected_channels`, lines 277–284) -/

/-- `update_selected_channels`: recompute `selected_channels` from the eight
checkbox variables (here a list of booleans, `true` = checked); if the result
is empty, channel 0 is forced back on and the selection becomes `[0]`. -/
def update_selected_channels (channelVars : List Bool) : List ℕ :=
  let selected := (channelVars.enum.filter fun p => p.2).map fun p => p.1
  if selected.isEmpty then [0] else selected

/-- Claim C4: after any channel-selection action the selection is non-empty,
and when every checkbox is off the selection is exactly `[0]`. -/
theorem selected_channels_nonempty (channelVars : List Bool) :
    update_selected_channels channelVars ≠ [] ∧
    ((∀ b ∈ channelVars, b = false) → update_selected_channels channelVars = [0]) := by
  constructor
  · unfold update_selected_channels
    by_cases h : ((channelVars.enum.filter fun p => p.2).map fun p => p.1).isEmpty
    · simp [h]
    · rw [if_neg h]
      simpa using h
  · intro hall
    unfold update_selected_channels
    have hfil : channelVars.enum.filter (fun p => p.2) = [] := by
      rw [List.filter_eq_nil_iff]
      intro p hp
      have h2 : p.2 ∈ channelVars :=
        List.get?_mem (List.mem_enum_iff_get?.mp hp)
      simp [hall p.2 h2]
    simp [hfil]

/-- Witness for C4 at the all-off checkbox state `[false, false, false]`. -/
theorem selected_channels_nonempty_witness :
    update_selected_channels [false, false, false] ≠ [] ∧
    update_selected_channels [false, false, false] = [0] := by
  have h := selected_channels_nonempty [false, false, false]
  exact ⟨h.1, h.2 (by decide)⟩

/-! ### Sampling-interval update (`update_acquisition_interval`, lines 295–305) -/

/-- State touched by `update_acquisition_interval`: the stored interval
`delta_t`, the entry field (as the parsed number it displays, `none` when it
does not parse as a float), and whether an error dialog was shown. -/
structure IntervalState where
  delta_t : ℚ
  entry : Option ℚ
  errorShown : Bool
deriving DecidableEq

/-- `update_acquisition_interval`: parse the entry; on a parse failure or a
value `≤ 0` (the `raise ValueError` path) show the error and reset the entry
to `str(delta_t)`, leaving `delta_t` unchanged; otherwise store the value. -/
def update_acquisition_interval (s : IntervalState) : IntervalState :=
  match s.entry with
  | none => { s with errorShown := true, entry := some s.delta_t }
  | some v =>
    if v ≤ 0 then { s with errorShown := true, entry := some s.delta_t }
    else { s with delta_t := v }

/-- Claim C9: a non-positive or unparsable interval is rejected — `delta_t`
keeps its prior value, an error is reported and the entry field is reset to
the prior value — while a positive value replaces `delta_t`. -/
theorem interval_update_spec (s : IntervalState) :
    (s.entry = none →
      update_acquisition_interval s =
        { delta_t := s.delta_t, entry := some s.delta_t, errorShown := true }) ∧
    (∀ v, s.entry = some v → v ≤ 0 →
      update_acquisition_interval s =
        { delta_t := s.delta_t, entry := some s.delta_t, errorShown := true }) ∧
    (∀ v, s.entry = some v → 0 < v →
      update_acquisition_interval s =
        { delta_t := v, entry := s.entry, errorShown := s.errorShown }) := by
  refine ⟨?_, ?_, ?_⟩
  · intro h; simp [update_acquisition_interval, h]
  · intro v hv hle; simp [update_acquisition_interval, hv, hle]
  · intro v hv hpos
    simp [update_acquisition_interval, hv, not_le.mpr hpos]

/-- Witness for C9: entry `-1` is rejected with `delta_t = 1/10` retained. -/
theorem interval_update_spec_witness :
    update_acquisition_interval { delta_t := 1/10, entry := some (-1), errorShown := false } =
      { delta_t := 1/10, entry := some (1/10), errorShown := true } :=
  (interval_update_spec { delta_t := 1/10, entry := some (-1), errorShown := false }).2.1
    (-1) rfl (by norm_num)

/-! ### Steps-per-second estimate (`update_status`, lines 413–424) -/

/-- The steps/sec computation of `update_status`: with more than one entry in
`step_history`, `(len - 1) / (newest - oldest)` when the span is positive,
else 0; with at most one entry, 0. -/
def steps_per_sec (stepHistory : List ℚ) : ℚ :=
  if 1 < stepHistory.length then
    let timeSpan := stepHistory.getLastD 0 - stepHistory.headD 0
    if 0 < timeSpan then ((stepHistory.length : ℚ) - 1) / timeSpan else 0
  else 0

/-- Claim C7: steps/sec is `(count − 1)/(newest − oldest)` whenever the ring
buffer holds at least two timestamps with positive span, and 0 otherwise;
the buffer `[0.0, 0.1, 0.2]` yields exactly 10, and any buffer with fewer
than two entries yields 0. -/
theorem steps_per_sec_spec (stepHistory : List ℚ) :
    (1 < stepHistory.length → 0 < stepHistory.getLastD 0 - stepHistory.headD 0 →
      steps_per_sec stepHistory =
        ((stepHistory.length : ℚ) - 1) / (stepHistory.getLastD 0 - stepHistory.headD 0)) ∧
    (¬ (1 < stepHistory.length ∧ 0 < stepHistory.getLastD 0 - stepHistory.headD 0) →
      steps_per_sec stepHistory = 0) ∧
    steps_per_sec [0, 1/10, 2/10] = 10 ∧
    (stepHistory.length < 2 → steps_per_sec stepHistory = 0) := by
  refine ⟨?_, ?_, ?_, ?_⟩
  · intro hlen hspan
    simp only [steps_per_sec, if_pos hlen, if_pos hspan]
  · intro hnot
    by_cases hlen : 1 < stepHistory.length
    · have hspan : ¬ 0 < stepHistory.getLastD 0 - stepHistory.headD 0 :=
        fun hs => hnot ⟨hlen, hs⟩
      simp only [steps_per_sec, if_pos hlen, if_neg hspan]
    · simp only [steps_per_sec, if_neg hlen]
  · norm_num [steps_per_sec, List.getLastD]
  · intro hlt
    have hlen : ¬ 1 < stepHistory.length := by omega
    simp only [steps_per_sec, if_neg hlen]

/-- Witness for C7 at the buffer `[0, 1, 2]`: span 2, two intervals, 1 step/sec. -/
theorem steps_per_sec_spec_witness :
    steps_per_sec [0, 1, 2] = (((3 : ℕ) : ℚ) - 1) / (2 - 0) := by
  have h := (steps_per_sec_spec [0, 1, 2]).1 (by norm_num)
    (by norm_num [List.getLastD])
  simpa [List.getLastD] using h

/-! ### Recording control and CSV output
(`toggle_recording` lines 318–341, `browse_output_file` lines 343–365,
`sensor_acquisition_loop` lines 113–143) -/

/-- A CSV cell: the header cells are strings, the data cells numbers. -/
inductive Cell where
  | str : String → Cell
  | num : ℚ → Cell
deriving DecidableEq

/-- A CSV row as handed to `csv_writer.writerow`. -/
abbrev Row := List Cell

/-- The open output file: every row handed to the csv writer, and the
sublist already made durable by `output_file.flush()`. -/
structure FileState where
  rows : List Row
  durable : List Row
deriving DecidableEq

/-- `csv_writer.writerow(row)`. -/
def writeRow (row : Row) (f : FileState) : FileState :=
  { f with rows := f.rows ++ [row] }

/-- `output_file.flush()`: everything written so far becomes durable. -/
def flushFile (f : FileState) : FileState :=
  { f with durable := f.rows }

/-- The header row `['Time (s)'] + [f'Ch{ch} Voltage (V)' for ch in selected_channels]`. -/
def headerRow (channels : List ℕ) : Row :=
  Cell.str "Time (s)" :: channels.map fun ch =>
    Cell.str ("Ch" ++ toString ch ++ " Voltage (V)")

/-- The module-level recording/acquisition state touched by
`toggle_recording`, `browse_output_file` and `sensor_acquisition_loop`:
`is_recording`, `output_file`+`csv_writer` (one `Option`, as they are set
together), `start_time`, `sensor_data['time']`, `sensor_data['voltages']`
and `selected_channels`. -/
structure RecState where
  isRecording : Bool
  outputFile : Option FileState
  startTime : ℚ
  sensorTime : List ℚ
  sensorVolts : List (List ℚ)
  selectedChannels : List ℕ
deriving DecidableEq

/-- `browse_output_file`: when the dialog returns a filename, the file is
opened with mode `'w'` (truncating), and — only if recording is already
active — a header is written and flushed at once. A cancelled dialog
changes nothing. -/
def browse_output_file (filename : Option String) (s : RecState) : RecState :=
  match filename with
  | none => s
  | some _ =>
    let f0 : FileState := { rows := [], durable := [] }
    if s.isRecording then
      { s with outputFile := some (flushFile (writeRow (headerRow s.selectedChannels) f0)) }
    else
      { s with outputFile := some f0 }

/-- `toggle_recording`, with the file dialog's answer (used only when no
output file is open) and the current wall clock passed explicitly. Starting:
browse if needed (returning unchanged if still no file), reset `start_time`,
clear the in-memory series, write and flush a header, set the flag.
Stopping: clear the flag only. -/
def toggle_recording (browseFilename : Option String) (now : ℚ) (s : RecState) : RecState :=
  if s.isRecording = false then
    let s1 := if s.outputFile.isNone then browse_output_file browseFilename s else s
    match s1.outputFile with
    | none => s1
    | some f =>
      let s2 := { s1 with startTime := now, sensorTime := [], sensorVolts := [] }
      { s2 with
        outputFile := some (flushFile (writeRow (headerRow s2.selectedChannels) f)),
        isRecording := true }
  else
    { s with isRecording := false }

/-- Rounding to three decimal places, as `round(x, 3)`; the tie-breaking of
Python's float `round` is not modelled. -/
def pyRound3 (x : ℚ) : ℚ := ((round (x * 1000) : ℤ) : ℚ) / 1000

/-- One successful body of `sensor_acquisition_loop` once `elapsed_time >=
delta_t`: read the selected channels, append `(relative time, readings)` to
`sensor_data`, and — if recording with an open file — write the rounded CSV
row and flush immediately. -/
def acquisition_tick (readChannel : ℕ → Option ℚ) (currentTime : ℚ) (s : RecState) :
    RecState :=
  let readings := read_sensors readChannel s.selectedChannels
  let rel := currentTime - s.startTime
  let s1 := { s with
    sensorTime := s.sensorTime ++ [pyRound3 rel],
    sensorVolts := s.sensorVolts ++ [readings] }
  if s1.isRecording then
    match s1.outputFile with
    | some f =>
      let row : Row := Cell.num (pyRound3 rel) :: readings.map fun v => Cell.num (pyRound3 v)
      { s1 with outputFile := some (flushFile (writeRow row f)) }
    | none => s1
  else s1

/-- Claim C5: starting recording with a file open (or after a successful
prompt) resets the elapsed-time origin to `now`, clears the in-memory
series, and writes and flushes a header naming exactly the selected
channels in order; a cancelled prompt aborts with no state change; stopping
only clears the flag and leaves the file open and untouched. -/
theorem toggle_recording_spec (s : RecState) (b : Option String) (now : ℚ) :
    (∀ f, s.isRecording = false → s.outputFile = some f →
      toggle_recording b now s =
        { isRecording := true,
          outputFile := some { rows := f.rows ++ [headerRow s.selectedChannels],
                               durable := f.rows ++ [headerRow s.selectedChannels] },
          startTime := now, sensorTime := [], sensorVolts := [],
          selectedChannels := s.selectedChannels }) ∧
    (∀ name, s.isRecording = false → s.outputFile = none → b = some name →
      toggle_recording b now s =
        { isRecording := true,
          outputFile := some { rows := [headerRow s.selectedChannels],
                               durable := [headerRow s.selectedChannels] },
          startTime := now, sensorTime := [], sensorVolts := [],
          selectedChannels := s.selectedChannels }) ∧
    (s.isRecording = false → s.outputFile = none → b = none →
      toggle_recording b now s = s) ∧
    (s.isRecording = true → toggle_recording b now s = { s with isRecording := false }) := by
  obtain ⟨rec, file, st, tms, vls, chs⟩ := s
  refine ⟨?_, ?_, ?_, ?_⟩
  · intro f h1 h2
    simp only at h1 h2
    subst h1; subst h2
    simp [toggle_recording, writeRow, flushFile]
  · intro name h1 h2 h3
    simp only at h1 h2
    subst h1; subst h2; subst h3
    simp [toggle_recording, browse_output_file, writeRow, flushFile]
  · intro h1 h2 h3
    simp only at h1 h2
    subst h1; subst h2; subst h3
    simp [toggle_recording, browse_output_file]
  · intro h1
    simp only at h1
    subst h1
    simp [toggle_recording]

/-- Witness for C5: starting with an open empty file at `now = 7` and
channels `[0, 2]`. -/
theorem toggle_recording_spec_witness :
    toggle_recording none 7
        { isRecording := false, outputFile := some { rows := [], durable := [] },
          startTime := 0, sensorTime := [3], sensorVolts := [[1]],
          selectedChannels := [0, 2] } =
      { isRecording := true,
        outputFile := some { rows := [headerRow [0, 2]], durable := [headerRow [0, 2]] },
        startTime := 7, sensorTime := [], sensorVolts := [],
        selectedChannels := [0, 2] } := by
  have h := (toggle_recording_spec
    { isRecording := false, outputFile := some { rows := [], durable := [] },
      startTime := 0, sensorTime := [3], sensorVolts := [[1]],
      selectedChannels := [0, 2] } none 7).1 { rows := [], durable := [] } rfl rfl
  simpa using h

/-- The state right after a successful browse while idle: an open, empty,
freshly truncated output file, recording off, channel 0 selected. -/
def freshFileState : RecState :=
  { isRecording := false, outputFile := some { rows := [], durable := [] },
    startTime := 0, sensorTime := [], sensorVolts := [],
    selectedChannels := [0] }

/-- Counterexample to claim C2: starting, stopping and restarting recording
without re-browsing writes the header a second time — the file holds two
header rows, not only the first one. -/
theorem second_header_counterexample :
    (toggle_recording none 2 (toggle_recording none 1
        (toggle_recording none 0 freshFileState))).outputFile =
      some { rows := [headerRow [0], headerRow [0]],
             durable := [headerRow [0], headerRow [0]] } ∧
    [headerRow [0], headerRow [0]] ≠ [headerRow [0]] := by
  constructor
  · rfl
  · simp

/-- Claim C2 as amended: toggling recording off and back on without
re-browsing writes a second header row — from any idle state with an open
file, the start/stop/start sequence appends exactly two header rows. -/
theorem second_header_rewritten (s : RecState) (f : FileState)
    (b₁ b₂ b₃ : Option String) (t₁ t₂ t₃ : ℚ)
    (h1 : s.isRecording = false) (h2 : s.outputFile = some f) :
    (toggle_recording b₃ t₃ (toggle_recording b₂ t₂
        (toggle_recording b₁ t₁ s))).outputFile =
      some { rows := f.rows ++ [headerRow s.selectedChannels, headerRow s.selectedChannels],
             durable := f.rows ++ [headerRow s.selectedChannels, headerRow s.selectedChannels] } := by
  obtain ⟨rec, file, st, tms, vls, chs⟩ := s
  simp only at h1 h2
  subst h1; subst h2
  simp [toggle_recording, writeRow, flushFile]

/-- Witness for the amended C2 on the concrete post-browse state. -/
theorem second_header_rewritten_witness :
    (toggle_recording none 2 (toggle_recording none 1
        (toggle_recording none 0 freshFileState))).outputFile =
      some { rows := [headerRow [0], headerRow [0]],
             durable := [headerRow [0], headerRow [0]] } := by
  have h := second_header_rewritten freshFileState { rows := [], durable := [] }
    none none none 0 1 2 rfl rfl
  simpa [freshFileState] using h

/-- Claim C8: while recording with an open file, the tick writes exactly one
row — the elapsed time followed by one voltage per selected channel, every
value rounded to 3 decimals — and the file is flushed immediately, so the
row is already durable when the tick ends. -/
theorem csv_row_rounded_and_flushed (readChannel : ℕ → Option ℚ) (t : ℚ)
    (s : RecState) (f : FileState)
    (hrec : s.isRecording = true) (hfile : s.outputFile = some f) :
    (acquisition_tick readChannel t s).outputFile =
      some { rows := f.rows ++
               [Cell.num (pyRound3 (t - s.startTime)) ::
                 (read_sensors readChannel s.selectedChannels).map fun v => Cell.num (pyRound3 v)],
             durable := f.rows ++
               [Cell.num (pyRound3 (t - s.startTime)) ::
                 (read_sensors readChannel s.selectedChannels).map fun v => Cell.num (pyRound3 v)] } ∧
    (Cell.num (pyRound3 (t - s.startTime)) ::
      (read_sensors readChannel s.selectedChannels).map fun v => Cell.num (pyRound3 v)).length =
      s.selectedChannels.length + 1 := by
  obtain ⟨rec, file, st, tms, vls, chs⟩ := s
  simp only at hrec hfile
  subst hrec; subst hfile
  constructor
  · rfl
  · simp [read_sensors]

/-- Witness for C8: one tick at `t = 5` with `start_time = 1`, channels
`[0, 3]` reading `1/3` and `2`: the row `[4, 0.333, 2]` is written and
durable. -/
theorem csv_row_rounded_and_flushed_witness :
    (acquisition_tick (fun ch => if ch = 0 then some (1/3) else some 2) 5
        { isRecording := true, outputFile := some { rows := [], durable := [] },
          startTime := 1, sensorTime := [], sensorVolts := [],
          selectedChannels := [0, 3] }).outputFile =
      some { rows := [[Cell.num 4, Cell.num (333/1000), Cell.num 2]],
             durable := [[Cell.num 4, Cell.num (333/1000), Cell.num 2]] } := by
  have h := (csv_row_rounded_and_flushed (fun ch => if ch = 0 then some (1/3) else some 2) 5
    { isRecording := true, outputFile := some { rows := [], durable := [] },
      startTime := 1, sensorTime := [], sensorVolts := [],
      selectedChannels := [0, 3] } { rows := [], durable := [] } rfl rfl).1
  rw [h]
  norm_num [read_sensors, pyRound3, round_eq]

/-! ### Direction changes and the pulse thread
(`apply_direction` lines 380–405, `stop_motor` lines 407–411) -/

/-- The motor direction selected in the combobox. -/
inductive Direction where
  | Stop
  | Forward
  | Reverse
deriving DecidableEq

/-- The observable actions `apply_direction` / `stop_motor` perform, in
program order: writes of the `stepper_running` flag, `pulse_thread.join()`,
the GPIO writes to the direction and enable pins, and
`threading.Thread(...).start()` of a fresh `pulse_stepper` loop. -/
inductive MotorEvent where
  | setRunning : Bool → MotorEvent
  | joinPulseThread : MotorEvent
  | setDirectionPin : Bool → MotorEvent
  | setEnablePin : Bool → MotorEvent
  | spawnPulseThread : MotorEvent
deriving DecidableEq

/-- The event trace of `apply_direction`, given the selected direction, the
slider speed, and the current `stepper_running` / `pulse_thread is not None`
state. `Stop` delegates to `stop_motor` (flag off, enable pin high — no
join). Otherwise: if running, clear the flag and join the existing thread;
set the direction pin (`Forward` = high); drive enable low; and if the speed
is positive, set the flag and start a new pulse thread. -/
def apply_direction_events (direction : Direction) (speed : ℚ)
    (running threadExists : Bool) : List MotorEvent :=
  if direction = Direction.Stop then
    [MotorEvent.setRunning false, MotorEvent.setEnablePin true]
  else
    (if running then
        MotorEvent.setRunning false ::
          (if threadExists then [MotorEvent.joinPulseThread] else [])
      else []) ++
    [MotorEvent.setDirectionPin (decide (direction = Direction.Forward)),
     MotorEvent.setEnablePin false] ++
    (if 0 < speed then [MotorEvent.setRunning true, MotorEvent.spawnPulseThread] else [])

/-- Thread-level state: the `stepper_running` flag, whether `pulse_thread`
has ever been assigned, and how many `pulse_stepper` loops are currently
alive. -/
structure MotorThreads where
  running : Bool
  threadExists : Bool
  aliveLoops : ℕ
deriving DecidableEq

/-- Effect of one motor event on the thread-level state: `join` blocks until
the joined loop has exited (one fewer alive loop), `start` brings a new loop
to life. -/
def stepThreads (s : MotorThreads) : MotorEvent → MotorThreads
  | MotorEvent.setRunning b => { s with running := b }
  | MotorEvent.joinPulseThread => { s with aliveLoops := s.aliveLoops - 1 }
  | MotorEvent.spawnPulseThread =>
      { s with aliveLoops := s.aliveLoops + 1, threadExists := true }
  | _ => s

/-- All states passed through while executing an event trace, the initial
state included. -/
def threadStatesAlong (s : MotorThreads) (evs : List MotorEvent) : List MotorThreads :=
  evs.scanl stepThreads s

/-- Claim C3: applying a non-stop direction keeps at most one pulse loop
alive at every point of the trace, and when a generator is running and the
speed is positive the trace clears the flag and joins the old thread strictly
before starting the new one (join is event 2 of 6, the spawn is event 6). -/
theorem no_concurrent_pulse_generators (d : Direction) (speed : ℚ) (s : MotorThreads)
    (hd : d ≠ Direction.Stop)
    (ha : s.aliveLoops ≤ 1)
    (hrun : s.running = false → s.aliveLoops = 0)
    (hthr : s.running = true → s.threadExists = true) :
    (∀ t ∈ threadStatesAlong s (apply_direction_events d speed s.running s.threadExists),
      t.aliveLoops ≤ 1) ∧
    (s.running = true → 0 < speed →
      apply_direction_events d speed s.running s.threadExists =
        [MotorEvent.setRunning false, MotorEvent.joinPulseThread,
         MotorEvent.setDirectionPin (decide (d = Direction.Forward)),
         MotorEvent.setEnablePin false,
         MotorEvent.setRunning true, MotorEvent.spawnPulseThread]) := by
  obtain ⟨run, thr, alive⟩ := s
  simp only at ha hrun hthr ⊢
  cases run with
  | false =>
    have h0 : alive = 0 := hrun rfl
    subst h0
    refine ⟨?_, by simp⟩
    by_cases hs : 0 < speed <;>
      simp [apply_direction_events, threadStatesAlong, stepThreads, hs, hd]
  | true =>
    have hthr2 : thr = true := hthr rfl
    subst hthr2
    constructor
    · by_cases hs : 0 < speed <;>
        simp [apply_direction_events, threadStatesAlong, stepThreads, hs, hd] <;>
        omega
    · intro _ hs
      simp [apply_direction_events, hs, hd]

/-- Witness for C3: `Forward` at speed 50 from a state with one running
loop. -/
theorem no_concurrent_pulse_generators_witness :
    (∀ t ∈ threadStatesAlong { running := true, threadExists := true, aliveLoops := 1 }
        (apply_direction_events Direction.Forward 50 true true),
      t.aliveLoops ≤ 1) ∧
    apply_direction_events Direction.Forward 50 true true =
      [MotorEvent.setRunning false, MotorEvent.joinPulseThread,
       MotorEvent.setDirectionPin true, MotorEvent.setEnablePin false,
       MotorEvent.setRunning true, MotorEvent.spawnPulseThread] := by
  have h := no_concurrent_pulse_generators Direction.Forward 50
    { running := true, threadExists := true, aliveLoops := 1 }
    (by decide) (by decide) (by simp) (by simp)
  exact ⟨h.1, by simpa using h.2 rfl (by norm_num)⟩

end RSSA
